import Mathlib

/-!
Formal model of src/windows_report.cpp: the seeded linear-congruential
generator (`SeededRNG`), the energy-day simulator (`simulateEnergyDay`),
the layout of the six report regions, and the bar-chart / checklist
renderers.  Machine `uint64_t` arithmetic is modelled over `ℕ` with
explicit reduction `% 2 ^ 64`; `double` arithmetic is modelled over `ℝ`
(the RNG outputs `(next() >> 11) / 2 ^ 53` are exact dyadic rationals,
modelled in `ℚ` and cast into `ℝ`; the pi literal and `sin` of the source
are idealised as `Real.pi` and `Real.sin`).
-/

namespace WindowsReport

/-- Modulus of `uint64_t` arithmetic. -/
def U64 : ℕ := 2 ^ 64

/-- Multiplier `a` of the LCG in `SeededRNG::next` (line 30). -/
def lcgA : ℕ := 6364136223846793005

/-- State member of `class SeededRNG` (line 41): a single `uint64_t`. -/
structure SeededRNG where
  state : ℕ

/-- Constructor `SeededRNG(seed)` (line 27): `state = seed & ((1 << 64) - 1)`,
i.e. the seed reduced to 64 bits. -/
def SeededRNG.seeded (seed : ℕ) : SeededRNG := ⟨seed % U64⟩

/-- The state transition of `next()` (line 32): `state = state * a + c`
with `c = 1`, under 64-bit wraparound. -/
def rngNext (s : ℕ) : ℕ := (s * lcgA + 1) % U64

/-- Member `next()` (lines 29-34): advances the state and returns the new
state. -/
def SeededRNG.next (r : SeededRNG) : ℕ × SeededRNG :=
  (rngNext r.state, ⟨rngNext r.state⟩)

/-- The value extracted from a (new) state `s` by `nextDouble01`
(lines 35-39): `(s >> 11) / 2 ^ 53`, an exact dyadic rational. -/
def unitOf (s : ℕ) : ℚ := ((s / 2 ^ 11 : ℕ) : ℚ) / 2 ^ 53

/-- Member `nextDouble01()` (lines 35-39): one `next()` call, then the top
53 bits scaled into `[0, 1)`.  The `double` computation is exact here:
the 53-bit integer and the division by `2 ^ 53` incur no rounding. -/
def SeededRNG.nextDouble01 (r : SeededRNG) : ℚ × SeededRNG :=
  (unitOf (rngNext r.state), ⟨rngNext r.state⟩)

/-- First `n` return values of successive `next()` calls. -/
def SeededRNG.outputs (r : SeededRNG) : ℕ → List ℕ
  | 0 => []
  | n + 1 => (r.next).1 :: ((r.next).2.outputs n)

theorem rngNext_lt (s : ℕ) : rngNext s < U64 :=
  Nat.mod_lt _ (by norm_num [U64])

theorem unitOf_nonneg (s : ℕ) : 0 ≤ unitOf s := by
  unfold unitOf
  positivity

theorem unitOf_lt_one (s : ℕ) (hs : s < U64) : unitOf s < 1 := by
  unfold unitOf
  rw [div_lt_one (by positivity)]
  have hdiv : s / 2 ^ 11 < 2 ^ 53 := by
    rw [Nat.div_lt_iff_lt_mul (by norm_num)]
    calc s < U64 := hs
    _ = 2 ^ 53 * 2 ^ 11 := by norm_num [U64]
  exact_mod_cast hdiv

theorem outputs_eq_iterate (n : ℕ) :
    ∀ s, SeededRNG.outputs ⟨s⟩ n = (List.range n).map fun i => rngNext^[i + 1] s := by
  induction n with
  | zero => intro s; rfl
  | succ n ih =>
    intro s
    have h1 : SeededRNG.outputs ⟨s⟩ (n + 1) =
        rngNext s :: SeededRNG.outputs ⟨rngNext s⟩ n := rfl
    rw [h1, ih (rngNext s), List.range_succ_eq_map, List.map_cons, List.map_map]
    refine congrArg₂ _ (by simp) ?_
    refine List.map_congr_left fun i _ => ?_
    simp [Function.comp, Function.iterate_succ_apply]

/-- Struct `SYSTEMTIME` as used by the program (only the day / month / year
fields are read, by `formatDate`); supplied externally by `GetLocalTime`. -/
structure SYSTEMTIME where
  wYear : ℕ
  wMonth : ℕ
  wDay : ℕ
deriving DecidableEq

/-- Struct `Consumer` (lines 45-48). -/
structure Consumer where
  name : String
  kWh : ℝ

/-- Struct `Category` (lines 49-52). -/
structure Category where
  name : String
  kWh : ℝ

/-- Struct `EnergyDay` (lines 53-60). -/
structure EnergyDay where
  buildingName : String
  date : SYSTEMTIME
  hourlyKWh : List ℝ
  topConsumers : List Consumer
  categoryBreakdown : List Category
  priceCZKPerKWh : ℝ

/-- Base load for hour `h` (lines 72-79): the if-chain of the source. -/
noncomputable def hourBase (h : ℕ) : ℝ :=
  if h < 6 ∨ 23 ≤ h then 6.5
  else if h < 8 then 6.5 + 3.0
  else if h ≤ 18 then 16.0
  else 10.0

/-- Wave term for hour `h` (line 80).  The source multiplies by the double
literal `3.14159265358979323846` and calls libm `sin`; both are idealised
as `Real.pi` and `Real.sin`. -/
noncomputable def hourWave (h : ℕ) : ℝ :=
  if 8 ≤ h ∧ h ≤ 18 then 7.0 * Real.sin (((h : ℝ) - 8.0) / 10.0 * Real.pi) else 0.0

/-- Condition of the spike branch (line 82): the second `nextDouble01`
value compared against `0.08`.  For dyadic values `k / 2 ^ 53` the
comparison with the rational `8 / 100` decides exactly as the double
comparison with the double literal `0.08` (no multiple of `2 ^ -53` lies
between the two thresholds). -/
def spikeCond (s1 : ℕ) : Prop := unitOf (rngNext s1) < 8 / 100

instance (s1 : ℕ) : Decidable (spikeCond s1) := by
  unfold spikeCond; infer_instance

/-- RNG state after the body of the hour loop (lines 81-82) has run,
starting from state `s`: two `nextDouble01` calls always, a third one
only when the spike condition fires. -/
def simulateHourState (s : ℕ) : ℕ :=
  let s1 := rngNext s
  let s2 := rngNext s1
  if spikeCond s1 then rngNext s2 else s2

/-- Value stored in `hourlyKWh[h]` by the hour loop (lines 71-85), when the
loop body starts from RNG state `s`: noise from the first draw, the spike
decided by the second draw and sized by a conditional third draw, clamped
to a floor of `3.0` via `std::max`. -/
noncomputable def simulateHourValue (h : ℕ) (s : ℕ) : ℝ :=
  let s1 := rngNext s
  let noise : ℝ := ((unitOf s1 : ℚ) : ℝ) - 0.5
  let noise := noise * 2.0
  let s2 := rngNext s1
  let spike : ℝ :=
    if spikeCond s1 then 5.0 + ((unitOf (rngNext s2) : ℚ) : ℝ) * 10.0 else 0.0
  max 3.0 (hourBase h + hourWave h + noise + spike)

/-- RNG state before iteration `h` of the hour loop: the constructor seeds
the generator once (line 64), then each loop iteration advances it. -/
def stateAt (seed : ℕ) : ℕ → ℕ
  | 0 => (SeededRNG.seeded seed).state
  | h + 1 => simulateHourState (stateAt seed h)

/-- The 24 hourly samples (lines 70-85), the loop unrolled over the state
trace. -/
noncomputable def hourlyList (seed : ℕ) : List ℝ :=
  (List.range 24).map fun h => simulateHourValue h (stateAt seed h)

/-- Category table `cats` (lines 90-96): names and shares, declared order. -/
noncomputable def catShares : List (String × ℝ) :=
  [("HVAC (chlazení + VZT)", 0.42),
   ("Osvětlení", 0.22),
   ("IT + serverovna", 0.18),
   ("Zásuvky / kuchyňky", 0.10),
   ("Ostatní", 0.08)]

/-- Category derivation loop (lines 97-103): `kWh = total * share`, in
declared order. -/
noncomputable def categoriesOf (total : ℝ) : List Category :=
  catShares.map fun c => ⟨c.1, total * c.2⟩

/-- Consumer table `consumersRaw` (lines 105-113): names and shares. -/
noncomputable def consumerShares : List (String × ℝ) :=
  [("Chiller / tepelné čerpadlo", 0.22),
   ("VZT jednotky", 0.17),
   ("Osvětlení open-space", 0.15),
   ("Serverovna UPS", 0.14),
   ("EV nabíjení", 0.10),
   ("Výtahy", 0.05),
   ("Ostatní", 0.17)]

/-- Raw consumer list (lines 114-120): `kWh = total * share`. -/
noncomputable def rawConsumersOf (total : ℝ) : List Consumer :=
  consumerShares.map fun c => ⟨c.1, total * c.2⟩

/-- One step of the descending sort of line 122: insert `x` in front of the
first element it is `≥`, keeping earlier-listed elements first on ties.
`std::sort` with comparator `a.kWh > b.kWh` on this 7-element range runs
the small-range insertion sort of the standard library implementations,
which performs exactly this stable descending arrangement. -/
noncomputable def insertDesc (x : Consumer) : List Consumer → List Consumer
  | [] => [x]
  | y :: ys => if y.kWh ≤ x.kWh then x :: y :: ys else y :: insertDesc x ys

/-- Descending stable sort of the raw consumer list (line 122). -/
noncomputable def sortConsumersDesc : List Consumer → List Consumer
  | [] => []
  | x :: xs => insertDesc x (sortConsumersDesc xs)

/-- Price constant (line 69). -/
noncomputable def priceCZK : ℝ := 3.20

/-- Building name constant (line 66). -/
def buildingNameConst : String := "Kancelářská budova A (menší)"

/-- Function `simulateEnergyDay` (lines 63-125).  The source fixes
`seed = 0xC0FFEE` (line 64) and takes the date from `GetLocalTime`
(line 68); both are explicit parameters here, the seed so that the
determinism and invariant claims range over every seed, the date because
it is an external input. -/
noncomputable def simulateEnergyDay (seed : ℕ) (date : SYSTEMTIME) : EnergyDay :=
  let hourly := hourlyList seed
  let total := hourly.sum
  { buildingName := buildingNameConst
    date := date
    hourlyKWh := hourly
    topConsumers := (sortConsumersDesc (rawConsumersOf total)).take 6
    categoryBreakdown := categoriesOf total
    priceCZKPerKWh := priceCZK }

/-- The seed the source actually uses (line 64). -/
def sourceSeed : ℕ := 0xC0FFEE

/-- Win32 `RECT` with signed coordinates. -/
structure RECT where
  left : ℤ
  top : ℤ
  right : ℤ
  bottom : ℤ
deriving DecidableEq

/-- Header region (line 172): offset by 40 below the top margin to leave
room for the print button, height 190.  The source fixes `margin = 10`
(line 170); it is a parameter here, as in the layout contract. -/
def headerArea (client : RECT) (margin : ℤ) : RECT :=
  ⟨client.left + margin, client.top + margin + 40,
   client.right - margin, client.top + margin + 40 + 190⟩

/-- Line-chart region (line 173): directly below the header, height 260. -/
def lineArea (client : RECT) (margin : ℤ) : RECT :=
  ⟨client.left + margin, (headerArea client margin).bottom + margin,
   client.right - margin, (headerArea client margin).bottom + margin + 260⟩

/-- Bar-chart region (line 174): height 250. -/
def barArea (client : RECT) (margin : ℤ) : RECT :=
  ⟨client.left + margin, (lineArea client margin).bottom + margin,
   client.right - margin, (lineArea client margin).bottom + margin + 250⟩

/-- Pie-chart region (line 175): height 300. -/
def pieArea (client : RECT) (margin : ℤ) : RECT :=
  ⟨client.left + margin, (barArea client margin).bottom + margin,
   client.right - margin, (barArea client margin).bottom + margin + 300⟩

/-- Table region (line 176): height 320. -/
def tableArea (client : RECT) (margin : ℤ) : RECT :=
  ⟨client.left + margin, (pieArea client margin).bottom + margin,
   client.right - margin, (pieArea client margin).bottom + margin + 320⟩

/-- Checklist region (line 177): height 240. -/
def checkArea (client : RECT) (margin : ℤ) : RECT :=
  ⟨client.left + margin, (tableArea client margin).bottom + margin,
   client.right - margin, (tableArea client margin).bottom + margin + 240⟩

/-- The six regions in the order they are computed and drawn. -/
def regions (client : RECT) (margin : ℤ) : List RECT :=
  [headerArea client margin, lineArea client margin, barArea client margin,
   pieArea client margin, tableArea client margin, checkArea client margin]

/-- Two regions are vertically disjoint: the first ends at or above where
the second starts. -/
def vDisjoint (a b : RECT) : Prop := a.bottom ≤ b.top

instance (a b : RECT) : Decidable (vDisjoint a b) := by
  unfold vDisjoint; infer_instance

/-- Truncation toward zero performed by the C cast `(int)` on a `double`. -/
noncomputable def cTrunc (x : ℝ) : ℤ := if 0 ≤ x then ⌊x⌋ else -⌊-x⌋

/-- One rendered row of the bar chart (loop body, lines 361-393). -/
structure BarRow where
  name : String
  value : ℝ
  frac : ℝ
  fillLeft : ℤ
  fillW : ℤ
  valueX : ℤ
  rowTop : ℤ

/-- Scaling divisor of `DrawBarChart` (lines 355-356): a fold that starts
at `1.0` and keeps the larger value. -/
noncomputable def barMaxV (consumers : List Consumer) : ℝ :=
  consumers.foldl (fun m c => if m < c.kWh then c.kWh else m) 1.0

/-- The rows emitted by `DrawBarChart` (lines 345-394).  `measure` stands
for `GetTextExtentPoint32W` applied to the 1-decimal formatted value text
(external text measurement); the value text is drawn at
`area.right - 10 - measure`, i.e. right-aligned to the 10-pixel margin. -/
noncomputable def drawBarChart (measure : ℝ → ℤ) (consumers : List Consumer)
    (area : RECT) : List BarRow :=
  let maxV := barMaxV consumers
  let barX := area.left + 170
  let barW := area.right - barX - 10
  consumers.mapIdx fun i c =>
    let frac := c.kWh / maxV
    ⟨c.name, c.kWh, frac, barX, cTrunc ((barW : ℝ) * frac),
     area.right - 10 - measure c.kWh, area.top + 60 + 28 * (i : ℤ)⟩

/-- Struct `Alert` of `DrawChecklist` (line 543). -/
structure Alert where
  text : String
  ok : Bool

instance : Inhabited Alert := ⟨⟨"", true⟩⟩

/-- The five alerts computed by `DrawChecklist` (lines 534-550): the
night-load check, the extreme-peak check, the completeness check, and two
always-true recommendations. -/
noncomputable def deriveAlerts (hourly : List ℝ) : List Alert :=
  let total := hourly.sum
  let avg := total / 24.0
  let peak := hourly.foldl (fun p v => if p < v then v else p) 0.0
  let nightAvg := (hourly.take 6).sum / 6.0
  let nightHigh : Bool := decide (avg * 0.75 < nightAvg)
  [⟨"Noční zátěž v normě", !nightHigh⟩,
   ⟨"Žádná extrémní špička (> 2.0× průměr)", !(decide (avg * 2.0 < peak))⟩,
   ⟨"Křivka bez výpadků (24/24)", decide (hourly.length = 24)⟩,
   ⟨"Doporučení: zkontrolovat HVAC plán", true⟩,
   ⟨"Doporučení: audit osvětlení (zóny)", true⟩]

/-- Glyph drawn in an alert box (lines 555-572): a check mark when the
alert passes, a cross when it fails. -/
inductive Glyph where
  | check : Glyph
  | cross : Glyph
deriving DecidableEq

/-- One rendered checklist line (loop body, lines 552-576): the glyph
chosen by `a.ok`, the label drawn bold exactly when the alert failed
(line 574 passes `!a.ok` as the bold flag). -/
def renderAlert (a : Alert) : Glyph × Bool :=
  (if a.ok then Glyph.check else Glyph.cross, !a.ok)

/-- Divisor of the pie-slice fractions (`DrawPieChart`, lines 407-408):
the sum of the category kWh values. -/
noncomputable def pieTotal (cats : List Category) : ℝ :=
  (cats.map Category.kWh).sum

/-- Base load as the specification words it: 6.5 for night hours
(`h < 6` or `h ≥ 23`), 9.5 for the early-morning ramp (`6 ≤ h < 8`),
16.0 for the workday band (`8 ≤ h ≤ 18`), 10.0 for the evening
(`19 ≤ h ≤ 22`).  Compared against the source's `hourBase`. -/
noncomputable def specBase (h : ℕ) : ℝ :=
  if h < 6 ∨ 23 ≤ h then 6.5
  else if 6 ≤ h ∧ h < 8 then 9.5
  else if 8 ≤ h ∧ h ≤ 18 then 16.0
  else 10.0

/-- Maximum of a list of reals (0 for the empty list); the specification's
`max(hourlyKWh)` and `max(kWh among the 6)`. -/
noncomputable def listMaxD : List ℝ → ℝ
  | [] => 0
  | x :: xs => xs.foldl max x

/-- The specification's scaling divisor for the bar chart: the maximum kWh
among the listed consumers.  Compared against the source's `barMaxV`. -/
noncomputable def specMaxKWh (consumers : List Consumer) : ℝ :=
  listMaxD (consumers.map Consumer.kWh)

theorem hourBase_eq_specBase (h : ℕ) : hourBase h = specBase h := by
  unfold hourBase specBase
  split_ifs <;> first | omega | norm_num

theorem hourBase_le (h : ℕ) : hourBase h ≤ 16 := by
  unfold hourBase
  split_ifs <;> norm_num

theorem hourWave_le (h : ℕ) : hourWave h ≤ 7 := by
  unfold hourWave
  split_ifs with hb
  · have hs := Real.sin_le_one (((h : ℝ) - 8.0) / 10.0 * Real.pi)
    nlinarith
  · norm_num

theorem unitR_nonneg (s : ℕ) : (0 : ℝ) ≤ ((unitOf s : ℚ) : ℝ) := by
  exact_mod_cast unitOf_nonneg s

theorem unitR_rngNext_lt_one (s : ℕ) : ((unitOf (rngNext s) : ℚ) : ℝ) < 1 := by
  exact_mod_cast unitOf_lt_one _ (rngNext_lt s)

theorem noise_lt_one (s : ℕ) :
    (((unitOf (rngNext s) : ℚ) : ℝ) - 0.5) * 2 < 1 := by
  have := unitR_rngNext_lt_one s
  nlinarith

theorem neg_one_le_noise (s : ℕ) :
    (-1 : ℝ) ≤ (((unitOf (rngNext s) : ℚ) : ℝ) - 0.5) * 2 := by
  have := unitR_nonneg (rngNext s)
  nlinarith

theorem spike_lt (s : ℕ) :
    (5 : ℝ) + ((unitOf (rngNext s) : ℚ) : ℝ) * 10 < 15 := by
  have := unitR_rngNext_lt_one s
  nlinarith

theorem five_le_spike (s : ℕ) :
    (5 : ℝ) ≤ 5 + ((unitOf (rngNext s) : ℚ) : ℝ) * 10 := by
  have := unitR_nonneg (rngNext s)
  nlinarith

theorem three_le_hourValue (h s : ℕ) : 3 ≤ simulateHourValue h s := by
  simp only [simulateHourValue]
  exact le_trans (by norm_num) (le_max_left _ _)

theorem hourValue_lt (h s : ℕ) : simulateHourValue h s < 39 := by
  simp only [simulateHourValue]
  refine max_lt (by norm_num) ?_
  have hb := hourBase_le h
  have hw := hourWave_le h
  have hn := noise_lt_one s
  split_ifs with hsp
  · have := spike_lt (rngNext (rngNext s))
    nlinarith
  · nlinarith

theorem sum_ge_three_mul :
    ∀ l : List ℝ, (∀ v ∈ l, (3 : ℝ) ≤ v) → 3 * l.length ≤ l.sum := by
  intro l
  induction l with
  | nil => simp
  | cons x xs ih =>
    intro hmem
    have hx : (3 : ℝ) ≤ x := hmem x (List.mem_cons_self _ _)
    have hxs := ih fun v hv => hmem v (List.mem_cons_of_mem _ hv)
    simp only [List.sum_cons, List.length_cons]
    push_cast
    linarith

theorem sum_lt_39_mul :
    ∀ l : List ℝ, l ≠ [] → (∀ v ∈ l, v < (39 : ℝ)) → l.sum < 39 * l.length := by
  intro l
  induction l with
  | nil => intro h; exact absurd rfl h
  | cons x xs ih =>
    intro _ hmem
    have hx : x < (39 : ℝ) := hmem x (List.mem_cons_self _ _)
    rcases xs with _ | ⟨y, ys⟩
    · simpa using hx
    · have hxs := ih (by simp) fun v hv => hmem v (List.mem_cons_of_mem _ hv)
      simp only [List.sum_cons, List.length_cons] at hxs ⊢
      push_cast at hxs ⊢
      linarith

theorem hourlyList_length (seed : ℕ) : (hourlyList seed).length = 24 := by
  simp [hourlyList]

theorem hourlyList_ne_nil (seed : ℕ) : hourlyList seed ≠ [] := by
  intro h
  have := hourlyList_length seed
  rw [h] at this
  simp at this

theorem mem_hourlyList_ge (seed : ℕ) : ∀ v ∈ hourlyList seed, 3 ≤ v := by
  intro v hv
  simp only [hourlyList, List.mem_map, List.mem_range] at hv
  obtain ⟨h, _, rfl⟩ := hv
  exact three_le_hourValue h _

theorem mem_hourlyList_lt (seed : ℕ) : ∀ v ∈ hourlyList seed, v < 39 := by
  intro v hv
  simp only [hourlyList, List.mem_map, List.mem_range] at hv
  obtain ⟨h, _, rfl⟩ := hv
  exact hourValue_lt h _

theorem total_ge (seed : ℕ) : 72 ≤ (hourlyList seed).sum := by
  have h := sum_ge_three_mul (hourlyList seed) (mem_hourlyList_ge seed)
  rw [hourlyList_length] at h
  norm_num at h
  exact h

theorem total_lt (seed : ℕ) : (hourlyList seed).sum < 936 := by
  have h := sum_lt_39_mul (hourlyList seed) (hourlyList_ne_nil seed)
    (mem_hourlyList_lt seed)
  rw [hourlyList_length] at h
  norm_num at h
  exact h

theorem total_pos (seed : ℕ) : 0 < (hourlyList seed).sum := by
  have := total_ge seed
  linarith

theorem sortConsumers_explicit (t : ℝ) (ht : 0 < t) :
    sortConsumersDesc (rawConsumersOf t) =
      [⟨"Chiller / tepelné čerpadlo", t * 0.22⟩, ⟨"VZT jednotky", t * 0.17⟩,
       ⟨"Ostatní", t * 0.17⟩, ⟨"Osvětlení open-space", t * 0.15⟩,
       ⟨"Serverovna UPS", t * 0.14⟩, ⟨"EV nabíjení", t * 0.10⟩,
       ⟨"Výtahy", t * 0.05⟩] := by
  norm_num [rawConsumersOf, consumerShares, sortConsumersDesc, insertDesc,
    mul_le_mul_left ht]

theorem topConsumers_explicit (seed : ℕ) (date : SYSTEMTIME) :
    (simulateEnergyDay seed date).topConsumers =
      [⟨"Chiller / tepelné čerpadlo", (hourlyList seed).sum * 0.22⟩,
       ⟨"VZT jednotky", (hourlyList seed).sum * 0.17⟩,
       ⟨"Ostatní", (hourlyList seed).sum * 0.17⟩,
       ⟨"Osvětlení open-space", (hourlyList seed).sum * 0.15⟩,
       ⟨"Serverovna UPS", (hourlyList seed).sum * 0.14⟩,
       ⟨"EV nabíjení", (hourlyList seed).sum * 0.10⟩] := by
  show (sortConsumersDesc (rawConsumersOf (hourlyList seed).sum)).take 6 = _
  rw [sortConsumers_explicit _ (total_pos seed)]
  rfl

theorem peakStep_eq_max :
    (fun p v : ℝ => if p < v then v else p) = max := by
  funext p v
  rcases lt_or_le p v with h | h
  · rw [if_pos h, max_eq_right (le_of_lt h)]
  · rw [if_neg (not_lt.mpr h), max_eq_left h]

theorem peakFold_eq_listMaxD (l : List ℝ) (hne : l ≠ [])
    (hnn : ∀ v ∈ l, 0 ≤ v) :
    l.foldl (fun p v => if p < v then v else p) 0 = listMaxD l := by
  rcases l with _ | ⟨x, xs⟩
  · exact absurd rfl hne
  · have hx : (0 : ℝ) ≤ x := hnn x (List.mem_cons_self _ _)
    rw [peakStep_eq_max]
    show List.foldl max (max 0 x) xs = listMaxD (x :: xs)
    rw [max_eq_right hx]
    rfl

theorem le_foldl_max (l : List ℝ) : ∀ a : ℝ, a ≤ l.foldl max a := by
  induction l with
  | nil => intro a; simp
  | cons x xs ih =>
    intro a
    exact le_trans (le_max_left a x) (ih (max a x))

theorem foldl_max_lt_iff (l : List ℝ) :
    ∀ a c : ℝ, c < l.foldl max a ↔ c < a ∨ ∃ v ∈ l, c < v := by
  induction l with
  | nil => intro a c; simp
  | cons x xs ih =>
    intro a c
    simp only [List.foldl_cons, ih (max a x) c, lt_max_iff, List.mem_cons]
    constructor
    · rintro ((h | h) | ⟨v, hv, hc⟩)
      · exact Or.inl h
      · exact Or.inr ⟨x, Or.inl rfl, h⟩
      · exact Or.inr ⟨v, Or.inr hv, hc⟩
    · rintro (h | ⟨v, hv | hv, hc⟩)
      · exact Or.inl (Or.inl h)
      · exact Or.inl (Or.inr (hv ▸ hc))
      · exact Or.inr ⟨v, hv, hc⟩

theorem hourlyList_get? (seed : ℕ) (h : ℕ) (hh : h < 24) :
    (hourlyList seed).get? h = some (simulateHourValue h (stateAt seed h)) := by
  rw [hourlyList, List.get?_eq_getElem?, List.getElem?_map, List.getElem?_range hh]
  rfl

theorem stateAt_succ (seed h : ℕ) :
    stateAt seed (h + 1) = simulateHourState (stateAt seed h) := rfl

theorem barMaxV_explicit (t : ℝ) (ht : 72 ≤ t) :
    barMaxV [⟨"Chiller / tepelné čerpadlo", t * 0.22⟩, ⟨"VZT jednotky", t * 0.17⟩,
      ⟨"Ostatní", t * 0.17⟩, ⟨"Osvětlení open-space", t * 0.15⟩,
      ⟨"Serverovna UPS", t * 0.14⟩, ⟨"EV nabíjení", t * 0.10⟩] = t * 0.22 := by
  have htp : (0 : ℝ) < t := by linarith
  have h1 : (1 : ℝ) < t * 0.22 := by nlinarith
  norm_num at h1
  norm_num [barMaxV, h1, mul_lt_mul_left htp]

theorem specMaxKWh_explicit (t : ℝ) (htp : 0 < t) :
    specMaxKWh [⟨"Chiller / tepelné čerpadlo", t * 0.22⟩, ⟨"VZT jednotky", t * 0.17⟩,
      ⟨"Ostatní", t * 0.17⟩, ⟨"Osvětlení open-space", t * 0.15⟩,
      ⟨"Serverovna UPS", t * 0.14⟩, ⟨"EV nabíjení", t * 0.10⟩] = t * 0.22 := by
  norm_num [specMaxKWh, listMaxD, max_eq_left, mul_le_mul_left htp]

/-- C1: every `next()` call updates the 64-bit state to
`(s * 6364136223846793005 + 1) mod 2 ^ 64` and returns the new state;
every `nextDouble01()` call returns `(next() >> 11) / 2 ^ 53`, which lies
in `[0, 1)`; and for any seed the first `N` outputs of `next()` are the
reference sequence obtained by iterating the recurrence under exact
64-bit modular arithmetic. -/
theorem claim_C1_generator :
    (∀ r : SeededRNG, (r.next).1 = (r.state * 6364136223846793005 + 1) % 2 ^ 64 ∧
      (r.next).2.state = (r.next).1) ∧
    (∀ r : SeededRNG, (r.nextDouble01).1 = (((r.next).1 / 2 ^ 11 : ℕ) : ℚ) / 2 ^ 53 ∧
      0 ≤ (r.nextDouble01).1 ∧ (r.nextDouble01).1 < 1) ∧
    (∀ s0 n : ℕ, (SeededRNG.seeded s0).outputs n =
      (List.range n).map fun i => rngNext^[i + 1] (s0 % 2 ^ 64)) := by
  refine ⟨fun r => ⟨rfl, rfl⟩,
    fun r => ⟨rfl, unitOf_nonneg _, unitOf_lt_one _ (rngNext_lt _)⟩,
    fun s0 n => ?_⟩
  have h := outputs_eq_iterate n (s0 % U64)
  simpa [SeededRNG.seeded, U64] using h

/-- C3: two runs of the simulation with the same seed and the same
reference date agree on every field of the produced `EnergyDay`: the
building name, the date, all 24 hourly values, the 5 category entries,
the 6 top-consumer entries, and the price. -/
theorem claim_C3_determinism (seed : ℕ) (date : SYSTEMTIME) :
    ((simulateEnergyDay seed date).buildingName =
        (simulateEnergyDay seed date).buildingName
      ∧ (simulateEnergyDay seed date).date = (simulateEnergyDay seed date).date
      ∧ (simulateEnergyDay seed date).hourlyKWh =
          (simulateEnergyDay seed date).hourlyKWh
      ∧ (simulateEnergyDay seed date).topConsumers =
          (simulateEnergyDay seed date).topConsumers
      ∧ (simulateEnergyDay seed date).categoryBreakdown =
          (simulateEnergyDay seed date).categoryBreakdown
      ∧ (simulateEnergyDay seed date).priceCZKPerKWh =
          (simulateEnergyDay seed date).priceCZKPerKWh)
    ∧ (simulateEnergyDay seed date).hourlyKWh.length = 24
    ∧ (simulateEnergyDay seed date).categoryBreakdown.length = 5
    ∧ (simulateEnergyDay seed date).topConsumers.length = 6 := by
  refine ⟨⟨rfl, rfl, rfl, rfl, rfl, rfl⟩, hourlyList_length seed, rfl, ?_⟩
  rw [topConsumers_explicit]
  rfl

/-- C5: every simulated day has exactly 24 hourly values and each of them
is at least 3.0 (the floor clamp). -/
theorem claim_C5_hourly_invariant (seed : ℕ) (date : SYSTEMTIME) :
    (simulateEnergyDay seed date).hourlyKWh.length = 24
    ∧ ∀ v ∈ (simulateEnergyDay seed date).hourlyKWh, 3 ≤ v :=
  ⟨hourlyList_length seed, mem_hourlyList_ge seed⟩

/-- C5 witness: the floor clamp holds at hour 0 of the day simulated from
the source's own seed. -/
theorem claim_C5_witness :
    3 ≤ simulateHourValue 0 (stateAt sourceSeed 0) :=
  (claim_C5_hourly_invariant sourceSeed ⟨2025, 10, 11⟩).2 _
    (List.mem_map.mpr ⟨0, List.mem_range.mpr (by norm_num), rfl⟩)

/-- C6: the simulator derives exactly 5 categories in declared order with
`kWh = total * share` for shares (0.42, 0.22, 0.18, 0.10, 0.08); the
category kWh values sum back to the hourly total (difference below 1e-6);
and applying the shares to a total of 100 yields exactly
[42, 22, 18, 10, 8]. -/
theorem claim_C6_categories (seed : ℕ) (date : SYSTEMTIME) :
    (simulateEnergyDay seed date).categoryBreakdown =
      [⟨"HVAC (chlazení + VZT)", (hourlyList seed).sum * 0.42⟩,
       ⟨"Osvětlení", (hourlyList seed).sum * 0.22⟩,
       ⟨"IT + serverovna", (hourlyList seed).sum * 0.18⟩,
       ⟨"Zásuvky / kuchyňky", (hourlyList seed).sum * 0.10⟩,
       ⟨"Ostatní", (hourlyList seed).sum * 0.08⟩]
    ∧ (simulateEnergyDay seed date).categoryBreakdown.length = 5
    ∧ |((simulateEnergyDay seed date).categoryBreakdown.map Category.kWh).sum -
        (simulateEnergyDay seed date).hourlyKWh.sum| < 1e-6
    ∧ (categoriesOf 100).map Category.kWh = [42, 22, 18, 10, 8] := by
  refine ⟨rfl, rfl, ?_, by norm_num [categoriesOf, catShares]⟩
  show |((categoriesOf (hourlyList seed).sum).map Category.kWh).sum -
      (hourlyList seed).sum| < 1e-6
  have hz : ((categoriesOf (hourlyList seed).sum).map Category.kWh).sum -
      (hourlyList seed).sum = 0 := by
    simp only [categoriesOf, catShares, List.map_cons, List.map_nil,
      List.sum_cons, List.sum_nil]
    ring
  rw [hz]
  norm_num

/-- C4: `topConsumers` has length 6 and is the 7-entry raw consumer list
with shares (0.22, 0.17, 0.15, 0.14, 0.10, 0.05, 0.17) applied to the
daily total, sorted in non-increasing kWh order with ties broken by
original list order (the two 0.17-share entries keep their relative
order, "VZT jednotky" before "Ostatní"), truncated to the first 6. -/
theorem claim_C4_topConsumers (seed : ℕ) (date : SYSTEMTIME) :
    (simulateEnergyDay seed date).topConsumers.length = 6
    ∧ (rawConsumersOf (hourlyList seed).sum).map Consumer.kWh =
        [(hourlyList seed).sum * 0.22, (hourlyList seed).sum * 0.17,
         (hourlyList seed).sum * 0.15, (hourlyList seed).sum * 0.14,
         (hourlyList seed).sum * 0.10, (hourlyList seed).sum * 0.05,
         (hourlyList seed).sum * 0.17]
    ∧ (simulateEnergyDay seed date).topConsumers =
        [⟨"Chiller / tepelné čerpadlo", (hourlyList seed).sum * 0.22⟩,
         ⟨"VZT jednotky", (hourlyList seed).sum * 0.17⟩,
         ⟨"Ostatní", (hourlyList seed).sum * 0.17⟩,
         ⟨"Osvětlení open-space", (hourlyList seed).sum * 0.15⟩,
         ⟨"Serverovna UPS", (hourlyList seed).sum * 0.14⟩,
         ⟨"EV nabíjení", (hourlyList seed).sum * 0.10⟩]
    ∧ (simulateEnergyDay seed date).topConsumers.Pairwise
        (fun a b => b.kWh ≤ a.kWh) := by
  have htc := topConsumers_explicit seed date
  have htp := total_pos seed
  refine ⟨by rw [htc]; rfl, by simp [rawConsumersOf, consumerShares], htc, ?_⟩
  rw [htc]
  norm_num [List.pairwise_cons, mul_le_mul_left htp]

/-- C2: for every hour `h` of the simulated day, the stored value is
`max(3, base + wave + noise + spike)` with the base given by the
specification's time-of-day bands (6.5 / 9.5 / 16.0 / 10.0), the wave
`7 sin((h-8)/10 π)` active only for hours 8-18, the noise `(u1 - 0.5) * 2`
in `[-1, 1)` from a first draw, and the spike `5 + 10 u3` in `[5, 15)`
from a third draw made only when the second draw is below 0.08; the RNG
state advances by exactly two `next()` calls per hour plus one more on
the spike branch, in that order. -/
theorem claim_C2_hour_step (seed : ℕ) (date : SYSTEMTIME) (h : Fin 24) :
    let s := stateAt seed (h : ℕ)
    let u1 : ℝ := ((unitOf (rngNext s) : ℚ) : ℝ)
    let u2 : ℚ := unitOf (rngNext (rngNext s))
    let u3 : ℝ := ((unitOf (rngNext (rngNext (rngNext s))) : ℚ) : ℝ)
    let noise : ℝ := (u1 - 0.5) * 2
    let spike : ℝ := if u2 < 8 / 100 then 5 + u3 * 10 else 0
    ((simulateEnergyDay seed date).hourlyKWh.get? (h : ℕ) =
      some (max 3 (specBase (h : ℕ) +
        (if 8 ≤ (h : ℕ) ∧ (h : ℕ) ≤ 18 then
          7 * Real.sin ((((h : ℕ) : ℝ) - 8) / 10 * Real.pi) else 0) +
        noise + spike)))
    ∧ stateAt seed ((h : ℕ) + 1) =
        (if u2 < 8 / 100 then rngNext (rngNext (rngNext s))
         else rngNext (rngNext s))
    ∧ (-1 ≤ noise ∧ noise < 1)
    ∧ (spike = 0 ∨ (5 ≤ spike ∧ spike < 15)) := by
  dsimp only
  refine ⟨?_, ?_, ⟨neg_one_le_noise _, noise_lt_one _⟩, ?_⟩
  · have hg : (simulateEnergyDay seed date).hourlyKWh.get? (h : ℕ) =
        some (simulateHourValue (h : ℕ) (stateAt seed (h : ℕ))) :=
      hourlyList_get? seed (h : ℕ) h.isLt
    rw [hg]
    norm_num [simulateHourValue, hourWave, spikeCond, hourBase_eq_specBase]
  · rw [stateAt_succ]
    simp [simulateHourState, spikeCond]
  · split_ifs with hsp
    · exact Or.inr ⟨five_le_spike _, spike_lt _⟩
    · exact Or.inl rfl

/-- C7 counterexample: the claim quantifies over every margin, but with a
negative margin (client rectangle 0 0 600 1100, margin -300) the header
and line-chart regions genuinely overlap: neither lies fully above the
other, refuting the no-overlap conjunct as stated. -/
theorem claim_C7_counterexample :
    ¬ vDisjoint (headerArea ⟨0, 0, 600, 1100⟩ (-300))
        (lineArea ⟨0, 0, 600, 1100⟩ (-300))
    ∧ ¬ vDisjoint (lineArea ⟨0, 0, 600, 1100⟩ (-300))
        (headerArea ⟨0, 0, 600, 1100⟩ (-300)) := by
  decide

/-- C7 (amended): for every canvas rectangle and every nonnegative margin
(the source fixes margin = 10), the six regions have heights 190, 260,
250, 300, 320, 240, each region after the first starts exactly `margin`
below the previous one, every region spans `canvasWidth - 2 * margin`
horizontally, and the regions are pairwise non-overlapping, ordered
top-to-bottom. -/
theorem claim_C7_layout (client : RECT) (margin : ℤ) (hm : 0 ≤ margin) :
    ((headerArea client margin).bottom - (headerArea client margin).top = 190
      ∧ (lineArea client margin).bottom - (lineArea client margin).top = 260
      ∧ (barArea client margin).bottom - (barArea client margin).top = 250
      ∧ (pieArea client margin).bottom - (pieArea client margin).top = 300
      ∧ (tableArea client margin).bottom - (tableArea client margin).top = 320
      ∧ (checkArea client margin).bottom - (checkArea client margin).top = 240)
    ∧ ((lineArea client margin).top = (headerArea client margin).bottom + margin
      ∧ (barArea client margin).top = (lineArea client margin).bottom + margin
      ∧ (pieArea client margin).top = (barArea client margin).bottom + margin
      ∧ (tableArea client margin).top = (pieArea client margin).bottom + margin
      ∧ (checkArea client margin).top = (tableArea client margin).bottom + margin)
    ∧ (∀ r ∈ regions client margin,
        r.right - r.left = (client.right - client.left) - 2 * margin)
    ∧ List.Pairwise vDisjoint (regions client margin) := by
  refine ⟨⟨?_, ?_, ?_, ?_, ?_, ?_⟩, ⟨rfl, rfl, rfl, rfl, rfl⟩, ?_, ?_⟩
  · simp [headerArea]
  · simp [lineArea]
  · simp [barArea]
  · simp [pieArea]
  · simp [tableArea]
  · simp [checkArea]
  · intro r hr
    simp only [regions, List.mem_cons, List.not_mem_nil, or_false] at hr
    rcases hr with rfl | rfl | rfl | rfl | rfl | rfl <;>
      simp [headerArea, lineArea, barArea, pieArea, tableArea, checkArea] <;>
      ring
  · rw [List.pairwise_iff_getElem]
    intro i j h1 h2 hij
    simp only [regions, List.length_cons, List.length_nil] at h1 h2
    interval_cases i <;> interval_cases j <;>
      simp only [regions, List.getElem_cons_zero, List.getElem_cons_succ,
        vDisjoint, headerArea, lineArea, barArea, pieArea, tableArea,
        checkArea] <;>
      omega

/-- C7 witness: at the source's own layout inputs (client 0 0 600 1100,
margin 10) the six regions are pairwise non-overlapping. -/
theorem claim_C7_witness :
    List.Pairwise vDisjoint (regions ⟨0, 0, 600, 1100⟩ 10) :=
  (claim_C7_layout ⟨0, 0, 600, 1100⟩ 10 (by decide)).2.2.2

/-- C8: the checklist derives exactly 5 alerts; the first fails exactly
when the average of hours 0-5 exceeds 0.75 times the 24-hour average, the
second exactly when the maximum hourly value exceeds 2 times the average,
the third passes exactly when 24 hourly samples exist, the two advisory
recommendations always pass; and rendering draws a cross glyph and bold
text exactly for failed alerts, a check mark for passing ones. -/
theorem claim_C8_checklist (seed : ℕ) (date : SYSTEMTIME) :
    let l := (simulateEnergyDay seed date).hourlyKWh
    let as := deriveAlerts l
    let avg := l.sum / 24
    (as.length = 5
      ∧ (as[0]!).text = "Noční zátěž v normě"
      ∧ ((as[0]!).ok = false ↔ 0.75 * avg < (l.take 6).sum / 6)
      ∧ ((as[1]!).ok = false ↔ 2 * avg < listMaxD l)
      ∧ ((as[2]!).ok = true ↔ l.length = 24)
      ∧ (as[3]!).ok = true
      ∧ (as[4]!).ok = true)
    ∧ ∀ a : Alert, ((renderAlert a).1 = Glyph.cross ↔ a.ok = false)
        ∧ ((renderAlert a).2 = true ↔ a.ok = false) := by
  dsimp only
  have hpeak : (hourlyList seed).foldl (fun p v => if p < v then v else p) 0 =
      listMaxD (hourlyList seed) :=
    peakFold_eq_listMaxD _ (hourlyList_ne_nil seed)
      (fun v hv => le_trans (by norm_num) (mem_hourlyList_ge seed v hv))
  refine ⟨⟨rfl, rfl, ?_, ?_, ?_, rfl, rfl⟩, ?_⟩
  · show (!decide ((hourlyList seed).sum / 24.0 * 0.75 <
        ((hourlyList seed).take 6).sum / 6.0)) = false ↔
      0.75 * ((hourlyList seed).sum / 24) < ((hourlyList seed).take 6).sum / 6
    simp only [Bool.not_eq_false', decide_eq_true_eq]
    norm_num
    constructor <;> intro <;> linarith
  · show (!decide ((hourlyList seed).sum / 24.0 * 2.0 <
        List.foldl (fun p v => if p < v then v else p) 0.0 (hourlyList seed))) =
        false ↔ 2 * ((hourlyList seed).sum / 24) < listMaxD (hourlyList seed)
    rw [show (0.0 : ℝ) = 0 by norm_num, hpeak]
    simp only [Bool.not_eq_false', decide_eq_true_eq]
    norm_num
    constructor <;> intro <;> linarith
  · show decide ((hourlyList seed).length = 24) = true ↔
      (hourlyList seed).length = 24
    simp
  · rintro ⟨t, ok⟩
    cases ok <;> simp [renderAlert]

/-- C9: the bar chart draws one row per listed consumer (6 rows for the
simulated day), each row's filled width proportional to the consumer's
kWh divided by the maximum kWh among the listed consumers, and each
numeric value label right-aligned to 10 pixels from the region's right
edge. -/
theorem claim_C9_barchart (seed : ℕ) (date : SYSTEMTIME) (area : RECT)
    (measure : ℝ → ℤ) :
    let cs := (simulateEnergyDay seed date).topConsumers
    let rows := drawBarChart measure cs area
    rows.length = 6
    ∧ rows.map BarRow.name = cs.map Consumer.name
    ∧ rows.map BarRow.value = cs.map Consumer.kWh
    ∧ rows.map BarRow.frac = cs.map (fun c => c.kWh / specMaxKWh cs)
    ∧ rows.map BarRow.fillW = cs.map (fun c =>
        cTrunc (((area.right - (area.left + 170) - 10 : ℤ) : ℝ) *
          (c.kWh / specMaxKWh cs)))
    ∧ rows.map BarRow.valueX = cs.map (fun c => area.right - 10 - measure c.kWh) := by
  dsimp only
  simp only [drawBarChart, topConsumers_explicit seed date,
    barMaxV_explicit _ (total_ge seed), specMaxKWh_explicit _ (total_pos seed)]
  simp [List.mapIdx_cons]

/-- C10: every hourly value of a simulated day is strictly below 39 (base
at most 16, wave at most 7, noise strictly below 1, spike strictly below
15), so the daily total lies in [72, 936); in particular the total and
the pie-chart divisor are strictly positive, so the percentage-of-total
divisions never divide by zero on simulator data. -/
theorem claim_C10_range (seed : ℕ) (date : SYSTEMTIME) :
    (∀ h : ℕ, hourBase h ≤ 16)
    ∧ (∀ h : ℕ, hourWave h ≤ 7)
    ∧ (∀ s : ℕ, (((unitOf (rngNext s) : ℚ) : ℝ) - 0.5) * 2 < 1)
    ∧ (∀ s : ℕ, (5 : ℝ) + ((unitOf (rngNext s) : ℚ) : ℝ) * 10 < 15)
    ∧ (∀ v ∈ (simulateEnergyDay seed date).hourlyKWh, v < 39)
    ∧ 72 ≤ (simulateEnergyDay seed date).hourlyKWh.sum
    ∧ (simulateEnergyDay seed date).hourlyKWh.sum < 936
    ∧ 0 < (simulateEnergyDay seed date).hourlyKWh.sum
    ∧ 0 < pieTotal (simulateEnergyDay seed date).categoryBreakdown := by
  refine ⟨hourBase_le, hourWave_le, noise_lt_one, spike_lt,
    mem_hourlyList_lt seed, total_ge seed, total_lt seed, total_pos seed, ?_⟩
  show 0 < pieTotal (categoriesOf (hourlyList seed).sum)
  have ht := total_pos seed
  simp only [pieTotal, categoriesOf, catShares, List.map_cons, List.map_nil,
    List.sum_cons, List.sum_nil]
  nlinarith

/-- C10 witness: the strict upper bound holds at hour 0 of the day
simulated from the source's own seed. -/
theorem claim_C10_witness :
    simulateHourValue 0 (stateAt sourceSeed 0) < 39 :=
  (claim_C10_range sourceSeed ⟨2025, 10, 11⟩).2.2.2.2.1 _
    (List.mem_map.mpr ⟨0, List.mem_range.mpr (by norm_num), rfl⟩)

end WindowsReport
